import Mathlib

/-!
Verification of the ToupCam camera wrapper (camera.py).

The embedding models the one piece of original logic — the pixel-buffer
channel-reordering pipeline (`get_pil_image`, the spec's FrameMaterializer)
— together with the session constructor, `cam_open`, `cam_close` and the
scalar parameter getters.  The vendor SDK (`lib`) is an external oracle:
each device call is modelled by the reply the device would give, and the
calls a routine issues are recorded in an explicit effect trace.

Byte conventions: numpy's `view(np.uint8)` reinterprets element memory
byte-by-byte; on the reference (little-endian) platform byte 0 of an
element is its least significant byte, so byte k of a value v is
v / 256^k % 256.
-/

/-- A 2-D array of fixed-width unsigned integers, row-major, as produced by
np.zeros((h, w), dtype) and filled by the capture source.  `elemSize` is
the byte width of one element (1 for uint8, 4 for uint32). -/
structure PixelBuffer where
  height : Nat
  width : Nat
  elemSize : Nat
  data : List Nat
deriving DecidableEq

/-- A materialized three-channel image; `pixels` is row-major (R, G, B). -/
structure RGBImage where
  height : Nat
  width : Nat
  pixels : List (Nat × Nat × Nat)
deriving DecidableEq

/-- Failure modes of get_pil_image.  In Python all three surface as raised
exceptions: `emptyBufferError` is the ValueError numpy raises when
reshape(h, w, -1) cannot infer the -1 axis of a size-0 array,
`shapeError` is the ValueError PIL.Image.fromarray raises when the
3-channel slice has fewer than 3 bytes per pixel, and `noBuffer` is the
AttributeError raised when data is None and no frame buffer exists. -/
inductive MatError where
  | shapeError
  | emptyBufferError
  | noBuffer
deriving DecidableEq

/-- Byte k (little-endian) of the unsigned value v. -/
def byteAt (v k : Nat) : Nat := v / 256 ^ k % 256

/-- The body of get_pil_image acting on an explicit buffer:
raw = data.view(np.uint8).reshape(data.shape + (-1,)); bgr = raw[..., :3];
image = PIL.Image.fromarray(bgr, 'RGB'); b, g, r = image.split();
return PIL.Image.merge('RGB', (r, g, b)).
The reshape with -1 raises when the array size is 0 (height or width 0);
fromarray with mode 'RGB' raises when the trailing axis is shorter than 3.
Otherwise fromarray maps byte 0 to the R slot, byte 1 to G, byte 2 to B,
split binds b = byte 0, g = byte 1, r = byte 2, and the final merge puts
byte 2 in R, byte 1 in G and byte 0 in B. -/
def materialize (buf : PixelBuffer) : Except MatError RGBImage :=
  if buf.height * buf.width = 0 then .error .emptyBufferError
  else if buf.elemSize < 3 then .error .shapeError
  else .ok ⟨buf.height, buf.width,
    buf.data.map (fun v => (byteAt v 2, byteAt v 1, byteAt v 0))⟩

/-- One reply of the vendor SDK to a status-returning call: the returned
HRESULT together with the value the call wrote through its out-pointer. -/
structure DeviceReply where
  hresult : Int
  value : Int
deriving DecidableEq

/-- Modelled from the spec: the helper `success` lives in the repository's
module core.py, which is not part of the sources; the spec describes the
wrapper as "checking a status code" and treating a non-success status as
failure.  The SDK returns HRESULT-style codes, where a status indicates
success exactly when it is nonnegative. -/
def success (hresult : Int) : Bool := 0 ≤ hresult

/-- Calls the vendor SDK issue, as recorded in an effect trace, plus the
file-write and encode effects of the save helpers (never emitted by the
materialization path). -/
inductive Effect where
  | openDevice
  | closeDevice
  | putESize (n : Nat)
  | getSize
  | startPullMode
  | getParam (name : String)
  | fileWrite
  | encode
deriving DecidableEq

/-- Session state of a ToupCamCamera object: the device handle returned by
Toupcam_Open (none models a NULL pointer), the configured resolution and
bit depth, the reusable frame buffer _data and the registered callback
_frame_fn (class attributes, both None until cam_open installs them). -/
structure CameraState where
  cam : Option Nat
  resolution : Nat
  bits : Nat
  dataBuf : Option PixelBuffer
  frameFn : Option Unit
deriving DecidableEq

/-- ToupCamCamera.__init__(resolution, bits): raises
ValueError('Bits needs to by 8 or 32') unless bits is in the one-element
tuple (32,), then opens the device (Toupcam_Open) and stores the handle.
`devHandle` is the pointer the SDK would return. -/
def initCamera (devHandle : Option Nat) (resolution bits : Nat) :
    Except String CameraState × List Effect :=
  if bits ∈ ([32] : List Nat) then
    (.ok ⟨devHandle, resolution, bits, none, none⟩, [Effect.openDevice])
  else
    (.error "Bits needs to by 8 or 32", [])

/-- External behaviour of the opened device as seen by cam_open: the reply
to Toupcam_get_Size (some (w, h) on success, none when the status code is
a failure) and the HRESULT of Toupcam_StartPullModeWithCallback. -/
structure Device where
  sizeReply : Option (Nat × Nat)
  startResult : Int
deriving DecidableEq

/-- ToupCamCamera.cam_open: set_esize(resolution); args = get_size();
if not args: return (None); otherwise shape = (h, w), dtype = uint8 when
bits == 8 else uint32, _data = np.zeros(shape, dtype), _frame_fn =
callback(get_frame), then StartPullModeWithCallback and return
success(result). -/
def cam_open (dev : Device) (st : CameraState) :
    Option Bool × CameraState × List Effect :=
  match dev.sizeReply with
  | none =>
      (none, st, [Effect.putESize st.resolution, Effect.getSize])
  | some (w, ht) =>
      let elem := if st.bits = 8 then 1 else 4
      let buf : PixelBuffer := ⟨ht, w, elem, List.replicate (ht * w) 0⟩
      let st1 : CameraState := { st with dataBuf := some buf, frameFn := some () }
      (some (success dev.startResult), st1,
        [Effect.putESize st.resolution, Effect.getSize, Effect.startPullMode])

/-- ToupCamCamera.cam_close: if self.cam: lib.Toupcam_Close(self.cam).
The handle field is never cleared; the only effect is the SDK call, and
only when the handle is non-NULL. -/
def cam_close (st : CameraState) : CameraState × List Effect :=
  match st.cam with
  | none => (st, [])
  | some _ => (st, [Effect.closeDevice])

/-- ToupCamCamera.get_pil_image(self, data=None): when data is None the
stored frame buffer _data is used; the body is `materialize` on that
buffer.  The session state is returned unchanged and no SDK, file or
encode effect is issued. -/
def get_pil_image (st : CameraState) (data : Option PixelBuffer) :
    Except MatError RGBImage × CameraState × List Effect :=
  match (match data with | none => st.dataBuf | some d => some d) with
  | none => (.error .noBuffer, st, [])
  | some buf => (materialize buf, st, [])

/-- ToupCamCamera._lib_get_func(func): v = ctypes.c_int();
if self._lib_func('get_' + func, byref(v)): return v.value — and
implicitly None otherwise.  `device` maps the SDK function name to the
reply of this call (getattr-style dispatch on 'get_' + func). -/
def lib_get_func (device : String → DeviceReply) (func : String) : Option Int :=
  let reply := device ("get_" ++ func)
  if success reply.hresult then some reply.value else none

/-- ToupCamCamera.get_gamma. -/
def get_gamma (device : String → DeviceReply) : Option Int :=
  lib_get_func device "Gamma"

/-- ToupCamCamera.get_contrast. -/
def get_contrast (device : String → DeviceReply) : Option Int :=
  lib_get_func device "Contrast"

/-- ToupCamCamera.get_brightness. -/
def get_brightness (device : String → DeviceReply) : Option Int :=
  lib_get_func device "Brightness"

/-- ToupCamCamera.get_saturation. -/
def get_saturation (device : String → DeviceReply) : Option Int :=
  lib_get_func device "Saturation"

/-- ToupCamCamera.get_hue. -/
def get_hue (device : String → DeviceReply) : Option Int :=
  lib_get_func device "Hue"

/-- ToupCamCamera.get_exposure_time. -/
def get_exposure_time (device : String → DeviceReply) : Option Int :=
  lib_get_func device "ExpoTime"

/-- Synthetic 2x2 buffer of 32-bit elements whose bytes per pixel are
(10, 20, 30, 255): element value 255*2^24 + 30*2^16 + 20*2^8 + 10. -/
def pb22 : PixelBuffer := ⟨2, 2, 4, [4280161290, 4280161290, 4280161290, 4280161290]⟩

/-- A 0x1 buffer of 8-bit elements: empty and thinner than 3 bytes. -/
def pbEmptyThin : PixelBuffer := ⟨0, 1, 1, []⟩

/-- A 1x1 buffer of 8-bit elements. -/
def pbThin : PixelBuffer := ⟨1, 1, 1, [7]⟩

/-- A 0x5 buffer of 32-bit elements. -/
def pbEmpty : PixelBuffer := ⟨0, 5, 4, []⟩

/-- A device on which every call fails. -/
def devFail : String → DeviceReply := fun _ => ⟨-1, 7⟩

/-- A device on which every call succeeds with value 9. -/
def devOk : String → DeviceReply := fun _ => ⟨0, 9⟩

/-- A closed session state: NULL handle, nothing allocated. -/
def stNull : CameraState := ⟨none, 2, 32, none, none⟩

/-- The state produced by a successful initCamera with bits 32. -/
def st32Open : CameraState := ⟨some 1, 2, 32, none, none⟩

/-- A device whose size query fails. -/
def devNoSize : Device := ⟨none, 0⟩

/-- A device reporting size 4 x 3 and a succeeding pull-mode start. -/
def devSized : Device := ⟨some (4, 3), 0⟩

/-- C1: For every PixelBuffer whose element byte-width is at least 3 and
whose height and width are positive, get_pil_image (materialize) returns
an image of the same height and width whose channels are, in order, the
third, second and first byte of each source element. -/
theorem materialize_rgb_channels (buf : PixelBuffer) (h3 : 3 ≤ buf.elemSize)
    (hh : 0 < buf.height) (hw : 0 < buf.width) :
    ∃ img : RGBImage, materialize buf = Except.ok img ∧
      img.height = buf.height ∧ img.width = buf.width ∧
      img.pixels = buf.data.map (fun v => (byteAt v 2, byteAt v 1, byteAt v 0)) := by
  refine ⟨⟨buf.height, buf.width,
    buf.data.map (fun v => (byteAt v 2, byteAt v 1, byteAt v 0))⟩, ?_, rfl, rfl, rfl⟩
  unfold materialize
  rw [if_neg (Nat.mul_ne_zero hh.ne' hw.ne'), if_neg (by omega)]

/-- Witness for C1: the synthetic 2x2 32-bit buffer whose bytes per pixel
are (10, 20, 30, 255) materializes, and every output pixel reads
R = 30, G = 20, B = 10. -/
theorem materialize_rgb_channels_witness :
    (∃ img : RGBImage, materialize pb22 = Except.ok img ∧
      img.height = pb22.height ∧ img.width = pb22.width ∧
      img.pixels = pb22.data.map (fun v => (byteAt v 2, byteAt v 1, byteAt v 0))) ∧
    materialize pb22 =
      Except.ok ⟨2, 2, [(30, 20, 10), (30, 20, 10), (30, 20, 10), (30, 20, 10)]⟩ :=
  ⟨materialize_rgb_channels pb22 (by decide) (by decide) (by decide), by rfl⟩

/-- C3 counterexample: a 0x1 buffer of 8-bit elements has byte-width below
3, yet materialize fails with emptyBufferError (the reshape step raises
before the channel check is ever reached), not with shapeError. -/
theorem materialize_thin_not_shapeError :
    materialize pbEmptyThin = Except.error MatError.emptyBufferError ∧
    materialize pbEmptyThin ≠ Except.error MatError.shapeError := by
  refine ⟨rfl, fun h => ?_⟩
  rw [show materialize pbEmptyThin = Except.error MatError.emptyBufferError from rfl] at h
  exact MatError.noConfusion (Except.error.inj h)

/-- C3 (amended): for every buffer with positive height and width whose
element byte-width is strictly less than 3, get_pil_image (materialize)
fails with a ShapeError and produces no image. -/
theorem materialize_thin_shapeError (buf : PixelBuffer) (hh : 0 < buf.height)
    (hw : 0 < buf.width) (h3 : buf.elemSize < 3) :
    materialize buf = Except.error MatError.shapeError := by
  unfold materialize
  rw [if_neg (Nat.mul_ne_zero hh.ne' hw.ne'), if_pos h3]

/-- Witness for C3 (amended): a 1x1 buffer of 8-bit elements fails with
shapeError. -/
theorem materialize_thin_shapeError_witness :
    materialize pbThin = Except.error MatError.shapeError :=
  materialize_thin_shapeError pbThin (by decide) (by decide) (by decide)

/-- C4: for every buffer with height 0 or width 0, get_pil_image
(materialize) fails with an EmptyBufferError and produces no image. -/
theorem materialize_empty_error (buf : PixelBuffer)
    (h : buf.height = 0 ∨ buf.width = 0) :
    materialize buf = Except.error MatError.emptyBufferError := by
  unfold materialize
  rcases h with h | h <;> rw [if_pos (by rw [h]; omega)]

/-- Witness for C4: a 0x5 buffer of 32-bit elements fails with
emptyBufferError. -/
theorem materialize_empty_error_witness :
    materialize pbEmpty = Except.error MatError.emptyBufferError :=
  materialize_empty_error pbEmpty (Or.inl rfl)

/-- C2 (failing input, bits = 8): the constructor rejects bit depth 8 with
the very error message that announces 8 as allowed, while — as the claim
correctly states — 16 is rejected before any device call (empty effect
trace, no Toupcam_Open) and 32 is accepted. -/
theorem initCamera_rejects_bits8 :
    initCamera none 2 8 = (Except.error "Bits needs to by 8 or 32", []) ∧
    initCamera none 2 16 = (Except.error "Bits needs to by 8 or 32", []) ∧
    (initCamera (some 1) 2 32).1 = Except.ok st32Open := by
  refine ⟨rfl, rfl, rfl⟩

/-- C5: every scalar parameter getter returns absence (none) whenever the
underlying device call reports a non-success status — never a default
numeric value — and returns the value read from the device on success;
each named getter is the generic _lib_get_func at its SDK name. -/
theorem getters_absence_on_failure (device : String → DeviceReply) :
    (∀ func : String, success (device ("get_" ++ func)).hresult = false →
      lib_get_func device func = none) ∧
    (∀ func : String, success (device ("get_" ++ func)).hresult = true →
      lib_get_func device func = some (device ("get_" ++ func)).value) ∧
    get_gamma device = lib_get_func device "Gamma" ∧
    get_contrast device = lib_get_func device "Contrast" ∧
    get_brightness device = lib_get_func device "Brightness" ∧
    get_saturation device = lib_get_func device "Saturation" ∧
    get_hue device = lib_get_func device "Hue" ∧
    get_exposure_time device = lib_get_func device "ExpoTime" := by
  refine ⟨fun func hf => ?_, fun func hs => ?_, rfl, rfl, rfl, rfl, rfl, rfl⟩
  · simp [lib_get_func, hf]
  · simp [lib_get_func, hs]

/-- Witness for C5: on a device whose calls all fail the gamma getter
returns none; on a device whose calls all succeed with value 9 the
contrast getter returns some 9. -/
theorem getters_absence_on_failure_witness :
    lib_get_func devFail "Gamma" = none ∧
    lib_get_func devOk "Contrast" = some 9 :=
  ⟨(getters_absence_on_failure devFail).1 "Gamma" rfl,
   (getters_absence_on_failure devOk).2.1 "Contrast" rfl⟩

/-- C6: get_pil_image on the same buffer is deterministic and stateless —
the result does not depend on the session state, the state is returned
unchanged, and a second call right after the first yields bit-identical
output. -/
theorem get_pil_image_deterministic (st st' : CameraState) (b : PixelBuffer) :
    (get_pil_image st (some b)).1 = (get_pil_image st' (some b)).1 ∧
    (get_pil_image st (some b)).2.1 = st ∧
    (get_pil_image (get_pil_image st (some b)).2.1 (some b)).1 =
      (get_pil_image st (some b)).1 :=
  ⟨rfl, rfl, rfl⟩

/-- C7: get_pil_image issues no effect at all — no device call, no encode,
no file write — and leaves the whole session state, the stored frame
buffer included, unchanged; buffers are immutable values of the model, so
the input buffer itself cannot be written. -/
theorem get_pil_image_no_effects (st : CameraState) (d : Option PixelBuffer) :
    (get_pil_image st d).2.2 = [] ∧ (get_pil_image st d).2.1 = st := by
  unfold get_pil_image
  cases d with
  | none => cases st.dataBuf <;> exact ⟨rfl, rfl⟩
  | some b => exact ⟨rfl, rfl⟩

/-- C8: cam_close on a NULL/absent handle is a no-op — no SDK call, no
state change, and it returns normally rather than raising — and repeating
it changes nothing; in general the session state after two closes equals
the state after one (the handle field is never modified). -/
theorem cam_close_null_noop (st : CameraState) (h : st.cam = none) :
    cam_close st = (st, []) ∧
    cam_close (cam_close st).1 = (st, []) ∧
    (cam_close (cam_close st).1).1 = (cam_close st).1 := by
  unfold cam_close
  rw [h]
  exact ⟨rfl, by rw [h], by rw [h]⟩

/-- Witness for C8: closing the never-opened session stNull is a no-op
twice over. -/
theorem cam_close_null_noop_witness :
    cam_close stNull = (stNull, []) ∧
    cam_close (cam_close stNull).1 = (stNull, []) ∧
    (cam_close (cam_close stNull).1).1 = (cam_close stNull).1 :=
  cam_close_null_noop stNull rfl

/-- C9: every state the constructor accepts has bits = 32 (8 is rejected
along with everything else), so whenever cam_open gets a size and
allocates the frame buffer, that buffer has 4-byte (uint32) elements:
the uint8 branch is unreachable. -/
theorem constructed_bits_always_32 (devHandle : Option Nat) (res bitsv : Nat)
    (st : CameraState) (h : (initCamera devHandle res bitsv).1 = Except.ok st) :
    st.bits = 32 ∧
    ∀ (dev : Device) (w ht : Nat), dev.sizeReply = some (w, ht) →
      ∃ buf : PixelBuffer,
        (cam_open dev st).2.1.dataBuf = some buf ∧ buf.elemSize = 4 := by
  unfold initCamera at h
  by_cases hb : bitsv ∈ ([32] : List Nat)
  · rw [if_pos hb] at h
    have hst : st = ⟨devHandle, res, bitsv, none, none⟩ :=
      (Except.ok.inj h).symm
    have h32 : bitsv = 32 := by simpa using hb
    subst hst
    refine ⟨h32, fun dev w ht hsz => ?_⟩
    unfold cam_open
    rw [hsz]
    exact ⟨_, rfl, by simp [h32]⟩
  · rw [if_neg hb] at h
    exact absurd h (by simp)

/-- Witness for C9: the concrete state accepted by initCamera with bits 32
has bits 32, and cam_open on a device reporting size 4 x 3 allocates a
buffer of 4-byte elements. -/
theorem constructed_bits_always_32_witness :
    st32Open.bits = 32 ∧
    ∃ buf : PixelBuffer,
      (cam_open devSized st32Open).2.1.dataBuf = some buf ∧ buf.elemSize = 4 :=
  ⟨(constructed_bits_always_32 (some 1) 2 32 st32Open rfl).1,
   (constructed_bits_always_32 (some 1) 2 32 st32Open rfl).2 devSized 4 3 rfl⟩

/-- C10: when the size query fails, cam_open returns absence, leaves the
whole session state unchanged (_data and _frame_fn in particular), and
never starts pull mode. -/
theorem cam_open_size_failure (dev : Device) (st : CameraState)
    (h : dev.sizeReply = none) :
    (cam_open dev st).1 = none ∧
    (cam_open dev st).2.1 = st ∧
    (cam_open dev st).2.1.dataBuf = st.dataBuf ∧
    (cam_open dev st).2.1.frameFn = st.frameFn ∧
    Effect.startPullMode ∉ (cam_open dev st).2.2 := by
  unfold cam_open
  rw [h]
  exact ⟨rfl, rfl, rfl, rfl, by simp⟩

/-- Witness for C10: on the device devNoSize the open of session st32Open
reports absence, keeps the state, and does not start pull mode. -/
theorem cam_open_size_failure_witness :
    (cam_open devNoSize st32Open).1 = none ∧
    (cam_open devNoSize st32Open).2.1 = st32Open ∧
    (cam_open devNoSize st32Open).2.1.dataBuf = st32Open.dataBuf ∧
    (cam_open devNoSize st32Open).2.1.frameFn = st32Open.frameFn ∧
    Effect.startPullMode ∉ (cam_open devNoSize st32Open).2.2 :=
  cam_open_size_failure devNoSize st32Open rfl
